import Mathlib

/-!
Verification of the news ingestion / scoring / enrichment core.

Shallow embedding of the Python sources:
  * `news_source_manager.py`  — failover chain and the metered Toutiao adapter
  * `realtime_cctv_monitor.py` — importance scorer and two-stage enrichment

Conventions of the embedding:
  * Python floats are modelled as rationals (`ℚ`).
  * Python strings are `List Char`; `s in t` is `hasSubstr`.
  * `datetime.now()` is an explicit parameter `now : ℚ` (hours on an absolute
    axis); a parsed publish time is `some t`, a missing or unparseable one is
    `none` (the code then uses `now`, i.e. zero elapsed hours).
  * `round(x, 3)` is `round3`; Python rounds half-to-even while `round3`
    rounds half-up, which differ only at exact ties in the fourth decimal,
    never exercised by any claim here.
-/

namespace S2P

/-- Substring test: Python `needle in haystack` on strings. -/
def hasSubstr (needle : List Char) : List Char → Bool
  | [] => needle.isEmpty
  | c :: rest => needle.isPrefixOf (c :: rest) || hasSubstr needle rest

/-- Round to 3 decimals, as `round(x, 3)` in `_fallback_refined_result` and
the score detail dictionary. -/
def round3 (q : ℚ) : ℚ := (round (q * 1000) : ℤ) / 1000

/-- Round to 2 decimals, as `round(hours_diff, 2)`. -/
def round2 (q : ℚ) : ℚ := (round (q * 100) : ℤ) / 100

/-- A news item as handed to `_compute_news_strength`: the dictionary fields
the scorer reads.  `publish_time` is the parsed timestamp in hours, `none`
when missing or unparseable (the code then falls back to `now`). -/
structure NewsItem where
  title : List Char
  content : List Char
  source : List Char
  publish_time : Option ℚ
deriving DecidableEq

/-- `self.policy_keywords` from `RealtimeCCTVAIMonitor.__init__`. -/
def policy_keywords : List (List Char) :=
  (["国务院", "党中央", "习近平", "李强", "央行", "发改委",
    "财政部", "商务部", "工信部", "证监会", "银保监会",
    "重大", "决定", "政策", "支持", "促进", "发展", "规划"]).map String.toList

/-- `self.news_source_weights.get(source, 0.8)`: the table maps 央视新闻 to
0.95, 央视新闻API to 0.90, 头条新闻 to 0.85 and 默认 to 0.80, and every other
source falls back to the default 0.8 (the same value as the 默认 entry). -/
def news_source_weight (source : List Char) : ℚ :=
  if source = ("央视新闻").toList then 95/100
  else if source = ("央视新闻API").toList then 90/100
  else if source = ("头条新闻").toList then 85/100
  else 80/100

/-- `continuity_keywords` local to `_compute_news_strength`. -/
def continuity_keywords : List (List Char) :=
  (["继续", "深化", "扩大", "进一步", "持续", "推进", "加强"]).map String.toList

/-- `text = f"{title} {content}"`. -/
def news_text (item : NewsItem) : List Char := item.title ++ [' '] ++ item.content

/-- `policy_hits = sum(1 for keyword in self.policy_keywords if keyword in text)`:
the number of configured policy keywords occurring in the text. -/
def policy_hits (text : List Char) : ℕ :=
  (policy_keywords.filter (fun k => hasSubstr k text)).length

/-- The recency piecewise function of elapsed hours in `_compute_news_strength`. -/
def recency_score (hours_diff : ℚ) : ℚ :=
  if hours_diff ≤ 1 then 1
  else if hours_diff ≤ 6 then 8/10
  else if hours_diff ≤ 24 then 6/10
  else max (2/10) (6/10 - (hours_diff - 24) * (1/100))

/-- `hardness = 0.7 * source_weight + 0.3 * policy_strength` with
`policy_strength = min(1.0, policy_hits * 0.15)`. -/
def hardness_score (item : NewsItem) : ℚ :=
  7/10 * news_source_weight item.source
    + 3/10 * min 1 ((policy_hits (news_text item) : ℚ) * (15/100))

/-- `persistence = min(1.0, 0.5 + 0.3 * title_richness + (0.2 if has_continuity else 0))`
with `title_richness = min(1.0, len(title) / 30.0)`. -/
def persistence_score (item : NewsItem) : ℚ :=
  min 1 (5/10 + 3/10 * min 1 ((item.title.length : ℚ) / 30)
    + (if continuity_keywords.any (fun k => hasSubstr k (news_text item)) then 2/10 else 0))

/-- `hours_diff = (now - pub_time).total_seconds() / 3600`, where `pub_time`
falls back to `now` when the publish time is missing or unparseable. -/
def hours_since (now : ℚ) (item : NewsItem) : ℚ := now - (item.publish_time.getD now)

/-- The rounded `detail` dictionary of `_compute_news_strength`. -/
structure ScoreDetail where
  recency : ℚ
  hardness : ℚ
  persistence : ℚ
  source_weight : ℚ
  policy_hits : ℕ
  hours_since_publish : ℚ
deriving DecidableEq

/-- Return value of `_compute_news_strength`: `total_strength` plus the detail
dictionary (`none` for the empty-input branch, whose detail dict is empty). -/
structure ScoreResult where
  total_strength : ℚ
  detail : Option ScoreDetail
deriving DecidableEq

/-- `RealtimeCCTVAIMonitor._compute_news_strength`, with `datetime.now()`
made an explicit parameter.  The terminal `except` branch of the source is
unreachable for well-typed inputs and is not modelled. -/
def compute_news_strength (news_list : List NewsItem) (now : ℚ) : ScoreResult :=
  match news_list with
  | [] => ⟨0, none⟩
  | news_item :: _ =>
    let hours_diff := hours_since now news_item
    let recency := recency_score hours_diff
    let hardness := hardness_score news_item
    let persistence := persistence_score news_item
    let total_strength := 34/100 * recency + 33/100 * hardness + 33/100 * persistence
    ⟨total_strength,
      some ⟨round3 recency, round3 hardness, round3 persistence,
        round3 (news_source_weight news_item.source),
        policy_hits (news_text news_item), round2 hours_diff⟩⟩

/-! ### Source failover chain (`news_source_manager.py`) -/

/-- What one adapter's `get_latest_news` does on this tick: returns `None`
(unavailable), raises (caught by the manager), or returns a list. -/
inductive FetchOutcome (α : Type) where
  | noResult : FetchOutcome α
  | raises : FetchOutcome α
  | batch : List α → FetchOutcome α
deriving DecidableEq

/-- One source in `NewsSourceManager.sources`.  `quota_gate = some b` models a
`ToutiaoNewsAdapter` whose `is_quota_available()` returns `b` (the manager
checks it before fetching); `none` models a non-metered adapter. -/
structure SourceAdapter (α : Type) where
  quota_gate : Option Bool
  outcome : FetchOutcome α
deriving DecidableEq

/-- An adapter that contributes nothing this tick: quota-gated off, returns
`None`, raises, or returns an empty list. -/
def adapter_yields_nothing {α : Type} (s : SourceAdapter α) : Prop :=
  s.quota_gate = some false ∨ s.outcome = FetchOutcome.noResult
    ∨ s.outcome = FetchOutcome.raises ∨ s.outcome = FetchOutcome.batch []

instance {α : Type} [DecidableEq α] (s : SourceAdapter α) :
    Decidable (adapter_yields_nothing s) := by
  unfold adapter_yields_nothing; infer_instance

/-- `NewsSourceManager.get_latest_news`, instrumented: besides the returned
batch it records, per adapter in order, whether its fetch was invoked
(`False` for adapters skipped by the quota gate or never reached). -/
def get_latest_news_run {α : Type} : List (SourceAdapter α) → List α × List Bool
  | [] => ([], [])
  | s :: rest =>
    if s.quota_gate = some false then
      let r := get_latest_news_run rest
      (r.1, false :: r.2)
    else
      match s.outcome with
      | FetchOutcome.batch l =>
        if 0 < l.length then (l, true :: rest.map fun _ => false)
        else
          let r := get_latest_news_run rest
          (r.1, true :: r.2)
      | _ =>
        let r := get_latest_news_run rest
        (r.1, true :: r.2)

/-- `NewsSourceManager.get_latest_news`: the batch it returns ( `[]` when all
sources fail). -/
def get_latest_news {α : Type} (sources : List (SourceAdapter α)) : List α :=
  (get_latest_news_run sources).1

/-! ### Toutiao adapter quota (`ToutiaoNewsAdapter`) -/

/-- `{daily_call_count, last_reset_date}` of `ToutiaoNewsAdapter` (days are
abstract day numbers). -/
structure QuotaState where
  daily_call_count : ℕ
  last_reset_date : ℕ
deriving DecidableEq

/-- `self.daily_limit = 50`. -/
def daily_limit : ℕ := 50

/-- `ToutiaoNewsAdapter.is_quota_available`: resets the count on a new day,
then compares against the daily limit; returns the flag and the (possibly
reset) state. -/
def is_quota_available (today : ℕ) (s : QuotaState) : Bool × QuotaState :=
  let s1 := if today ≠ s.last_reset_date then ⟨0, today⟩ else s
  (decide (s1.daily_call_count < daily_limit), s1)

/-- What `requests.get` + response handling yields inside
`ToutiaoNewsAdapter.get_latest_news`: the call raises (timeout/network/parse
before the counter increment), or returns a response with an HTTP status and
the extracted, standardized news list (`none` when no news data was found). -/
inductive NetOutcome (α : Type) where
  | raises : NetOutcome α
  | response : ℕ → Option (List α) → NetOutcome α
deriving DecidableEq

/-- Return value of the modelled `ToutiaoNewsAdapter.get_latest_news`, plus
whether a network call was made and the adapter state afterwards. -/
structure FetchOut (α : Type) where
  result : Option (List α)
  network_called : Bool
  state : QuotaState
deriving DecidableEq

/-- `ToutiaoNewsAdapter.get_latest_news`: quota check first (no network call
when exhausted); on a response the counter increments before the status code
is inspected; `news_data[:limit]` truncates. -/
def toutiao_get_latest_news {α : Type} (today lim : ℕ) (net : NetOutcome α)
    (s : QuotaState) : FetchOut α :=
  let q := is_quota_available today s
  if q.1 then
    match net with
    | NetOutcome.raises => ⟨none, true, q.2⟩
    | NetOutcome.response status data =>
      let s2 : QuotaState := ⟨q.2.daily_call_count + 1, q.2.last_reset_date⟩
      if status ≠ 200 then ⟨none, true, s2⟩
      else
        match data with
        | none => ⟨none, true, s2⟩
        | some items => ⟨some (items.take lim), true, s2⟩
  else ⟨none, false, q.2⟩

/-- Iterate the adapter's fetch `n` times (same day, same network behaviour),
tracking only the quota state. -/
def fetch_iter {α : Type} (today lim : ℕ) (net : NetOutcome α) :
    ℕ → QuotaState → QuotaState
  | 0, s => s
  | n + 1, s => fetch_iter today lim net n (toutiao_get_latest_news today lim net s).state

/-! ### Two-stage enrichment pipeline (`realtime_cctv_monitor.py`) -/

/-- A stage-1 recommendation entry as consumed by `_fallback_refined_result`
and `_execute_stage2_with_retry`: the fields those functions read
(`rec.get('confidence', 0.5)` means a missing confidence is `none`). -/
structure StockRec where
  stock_name : List Char
  stock_code : List Char
  reason : List Char
  confidence : Option ℚ
  fallback_enhanced : Bool
deriving DecidableEq

/-- The stage-1 rough result fields read by stage 2:
`rough_result.get('recommendations', [])` and
`rough_result.get('news_title', '')`. -/
structure RoughResult where
  recommendations : List StockRec
  news_title : List Char
deriving DecidableEq

/-- The dictionary built by `_ai_refined_analysis` / `_fallback_refined_result`:
`final_recommendations`, `stage2_status`, the `'status'` key (never set by
either function, hence `Option`), and the two flags. -/
structure Stage2Dict where
  final_recommendations : List StockRec
  stage2_status : List Char
  status : Option (List Char)
  stage2_fallback : Bool
  enhancement_applied : Bool
deriving DecidableEq

/-- `policy_keywords` local to `_fallback_refined_result`. -/
def fallback_policy_keywords : List (List Char) :=
  (["央行", "国务院", "发改委", "财政部"]).map String.toList

/-- `hot_sectors` local to `_fallback_refined_result`. -/
def hot_sectors : List (List Char) :=
  (["人工智能", "新能源", "芯片", "基建"]).map String.toList

/-- The per-recommendation body of the `_fallback_refined_result` loop:
confidence boosts for policy keywords in the news title and hot sectors in
the reason, capped by `min(0.95, original + boost)` and rounded to 3
decimals. -/
def enhance_rec (news_title : List Char) (rec : StockRec) : StockRec :=
  let boost1 : ℚ :=
    if fallback_policy_keywords.any (fun k => hasSubstr k news_title) then 1/10 else 0
  let boost2 : ℚ := if hot_sectors.any (fun k => hasSubstr k rec.reason) then 1/20 else 0
  let original := rec.confidence.getD (1/2)
  { rec with
    confidence := some (round3 (min (95/100) (original + (boost1 + boost2)))),
    fallback_enhanced := true }

/-- Sort key of `enhanced_recommendations.sort(key=..., reverse=True)`:
`x.get('confidence', 0)`. -/
def conf_key (r : StockRec) : ℚ := r.confidence.getD 0

/-- Insert into a list sorted by non-increasing `conf_key`, after existing
entries with an equal or larger key (so the overall sort is stable, like
Python's). -/
def insert_desc (r : StockRec) : List StockRec → List StockRec
  | [] => [r]
  | x :: xs => if conf_key x < conf_key r then r :: x :: xs else x :: insert_desc r xs

/-- Stable sort by non-increasing `conf_key`, modelling
`list.sort(key=lambda x: x.get('confidence', 0), reverse=True)`. -/
def sort_desc : List StockRec → List StockRec
  | [] => []
  | r :: rs => insert_desc r (sort_desc rs)

/-- `RealtimeCCTVAIMonitor._fallback_refined_result`.  The trailing `except`
branch of the source (returning the stage-1 list verbatim with status
`basic_fallback`) is unreachable for well-typed inputs and is not modelled. -/
def fallback_refined_result (rough : RoughResult) : Stage2Dict :=
  if rough.recommendations.isEmpty then
    ⟨[], ("failed").toList, none, false, false⟩
  else
    ⟨sort_desc ((rough.recommendations.take 5).map (enhance_rec rough.news_title)),
      ("fallback_enhanced").toList, none, false, true⟩

/-- The JSON object `_ai_refined_analysis` ends up with when the AI call
returned something truthy: the two list fields it probes
(`refined_json.get("final_recommendations", refined_json.get("recommendations", []))`). -/
structure RefinedJson where
  final_recommendations : Option (List StockRec)
  recommendations : Option (List StockRec)
deriving DecidableEq

/-- `RealtimeCCTVAIMonitor._ai_refined_analysis`: on a falsy AI response
(`none`, e.g. timeout or bad HTTP status) it degrades to
`_fallback_refined_result`; otherwise it wraps the parsed object with
`stage2_status = "success"`.  Its `except` branch also degrades to
`_fallback_refined_result` and is covered by the `none` case. -/
def ai_refined_analysis (call_out : Option RefinedJson) (rough : RoughResult) : Stage2Dict :=
  match call_out with
  | none => fallback_refined_result rough
  | some rj =>
    ⟨rj.final_recommendations.getD (rj.recommendations.getD []),
      ("success").toList, none, false, false⟩

/-- Environment of one iteration of the `_execute_stage2_with_retry` loop:
whether `_build_refined_prompt` returned a non-empty prompt, and what the
stage-2 AI call (`_call_ai_for_refined_analysis`) yielded. -/
structure AttemptEnv where
  prompt_ok : Bool
  call_out : Option RefinedJson
deriving DecidableEq

/-- Observable run of the retry loop: the returned value (`none` when all
iterations were used up), the number of loop iterations executed, and the
backoff delays slept (in seconds, in order). -/
structure Stage2Run where
  result : Option Stage2Dict
  attempts : ℕ
  delays : List ℕ
deriving DecidableEq

/-- The loop body of `_execute_stage2_with_retry`: iteration `i` first sleeps
`2 ^ i` seconds when `i > 0`, skips to the next iteration when the prompt
build failed, and otherwise accepts the analysis result whenever its
`'status'` key is not `'error'`, substituting the stage-1 recommendations
(and setting `stage2_fallback`) when `final_recommendations` is empty. -/
def execute_stage2_go (rough : RoughResult) : ℕ → List AttemptEnv → Stage2Run
  | _, [] => ⟨none, 0, []⟩
  | i, e :: rest =>
    let delay : List ℕ := if 0 < i then [2 ^ i] else []
    if e.prompt_ok = false then
      let r := execute_stage2_go rough (i + 1) rest
      ⟨r.result, r.attempts + 1, delay ++ r.delays⟩
    else
      let fr := ai_refined_analysis e.call_out rough
      if fr.status ≠ some (("error").toList) then
        let fr2 :=
          if fr.final_recommendations.isEmpty then
            { fr with final_recommendations := rough.recommendations, stage2_fallback := true }
          else fr
        ⟨some fr2, 1, delay⟩
      else
        let r := execute_stage2_go rough (i + 1) rest
        ⟨r.result, r.attempts + 1, delay ++ r.delays⟩

/-- `RealtimeCCTVAIMonitor._execute_stage2_with_retry`, over an environment
listing one `AttemptEnv` per available iteration (`max_retries = 3` in the
source, so the pipeline calls it with a 3-element environment). -/
def execute_stage2_with_retry (rough : RoughResult) (env : List AttemptEnv) : Stage2Run :=
  execute_stage2_go rough 0 env

/-! ### Timeout boundary and basic fallback -/

/-- The dictionary returned by `_analyze_with_ai_timeout`: the keys a caller
may find on its three return paths. -/
structure PipeValue where
  status : Option (List Char)
  error : Option (List Char)
  recommendations : Option (List StockRec)
  final_recommendations : Option (List StockRec)
deriving DecidableEq

/-- How the worker thread of `_analyze_with_ai_timeout` ends: still alive at
the 60s join (timeout), died with an exception, or completed with a result. -/
inductive InnerOutcome where
  | timeout : InnerOutcome
  | raised : List Char → InnerOutcome
  | completed : PipeValue → InnerOutcome
deriving DecidableEq

/-- `RealtimeCCTVAIMonitor._analyze_with_ai_timeout`: a total function of the
worker outcome — no exception escapes it. -/
def analyze_with_ai_timeout (o : InnerOutcome) : PipeValue :=
  match o with
  | InnerOutcome.timeout =>
    ⟨some (("timeout").toList), some (("AI analysis timeout").toList), none, none⟩
  | InnerOutcome.raised m => ⟨some (("error").toList), some m, none, none⟩
  | InnerOutcome.completed r => r

/-- A recommendation entry built by `_generate_fallback_recommendations`. -/
structure FallbackRec where
  rank : ℕ
  stock_code : List Char
  stock_name : List Char
  recommendation_reason : List Char
  confidence_score : ℚ
  source : List Char
deriving DecidableEq

/-- Return value of `_generate_fallback_recommendations`. -/
structure FallbackValue where
  recommendations : List FallbackRec
  final_recommendations : List FallbackRec
  analysis_method : List Char
  status : List Char
deriving DecidableEq

/-- Build the entries for one matched keyword of the `keyword_stocks` table:
rank by position, reason `基于新闻关键词'kw'的<reason>`, confidence 0.6. -/
def build_fallback_recs (kw : List Char) :
    List (List Char × List Char × List Char) → ℕ → List FallbackRec
  | [], _ => []
  | (code, name, reason) :: rest, n =>
    ⟨n + 1, code, name,
      ("基于新闻关键词\x27").toList ++ kw ++ ("\x27的").toList ++ reason,
      6/10, ("fallback_keyword_matching").toList⟩ :: build_fallback_recs kw rest (n + 1)

/-- `RealtimeCCTVAIMonitor._generate_fallback_recommendations`: first keyword
of `keyword_stocks` found in the title contributes its stocks (then `break`);
with no match, one generic low-confidence entry; at most 3 entries are kept.
The `except` branch is unreachable for well-typed inputs and not modelled. -/
def generate_fallback_recommendations (title : List Char) : FallbackValue :=
  let recommendations :=
    if hasSubstr (("银行").toList) title then
      build_fallback_recs (("银行").toList)
        [((("000001").toList), (("平安银行").toList), (("银行业龙头").toList)),
         ((("600036").toList), (("招商银行").toList), (("零售银行领先").toList))] 0
    else if hasSubstr (("新能源").toList) title then
      build_fallback_recs (("新能源").toList)
        [((("002594").toList), (("比亚迪").toList), (("新能源汽车龙头").toList)),
         ((("300750").toList), (("宁德时代").toList), (("动力电池龙头").toList))] 0
    else if hasSubstr (("科技").toList) title then
      build_fallback_recs (("科技").toList)
        [((("002415").toList), (("海康威视").toList), (("安防科技龙头").toList)),
         ((("002230").toList), (("科大讯飞").toList), (("AI语音技术").toList))] 0
    else if hasSubstr (("基建").toList) title then
      build_fallback_recs (("基建").toList)
        [((("601800").toList), (("中国交建").toList), (("基建工程龙头").toList)),
         ((("601668").toList), (("中国建筑").toList), (("建筑央企龙头").toList))] 0
    else
      [⟨1, ("000001").toList, ("平安银行").toList, ("金融龙头，政策受益").toList,
        1/2, ("fallback_default").toList⟩]
  ⟨recommendations.take 3, recommendations.take 3,
    ("降级关键词匹配").toList, ("fallback_success").toList⟩

/-! ### Concrete inputs for counterexamples and witnesses -/

/-- The C7 scenario item: published 2 hours before scoring time, source
weight 0.95, exactly 3 policy-keyword hits (国务院, 央行, 发改委), a
continuity keyword (持续), title length 40. -/
def c7_item : NewsItem :=
  ⟨("国务院央行发改委持续水水水水水水水水水水水水水水水水水水水水水水水水水水水水水水").toList,
   [], ("央视新闻").toList, some 0⟩

/-- An item with a parseable publish time, for the scoring-idempotence
counterexample. -/
def c8_item : NewsItem := ⟨("a").toList, [], [], some 0⟩

/-- An item with a missing publish time, for the amended idempotence witness. -/
def c8w_item : NewsItem := ⟨("a").toList, [], [], none⟩

/-- A stage-1 recommendation used in stage-2 counterexamples and witnesses. -/
def cex_rec : StockRec :=
  ⟨("科大讯飞").toList, ("002230").toList, ("人工智能龙头企业").toList, some (3/4), false⟩

/-- A stage-1 rough result with one recommendation. -/
def cex_rough : RoughResult := ⟨[cex_rec], ("x").toList⟩

/-- Environment where every prompt builds and every AI response parses into
the expected schema but with an empty ranked list. -/
def cex_env : List AttemptEnv :=
  [⟨true, some ⟨some [], none⟩⟩, ⟨true, some ⟨some [], none⟩⟩, ⟨true, some ⟨some [], none⟩⟩]

/-- The C6 scenario: a stage-1 result with exactly two recommendations, for
the amended-theorem witness. -/
def c6w_rough : RoughResult :=
  ⟨[⟨("科大讯飞").toList, ("002230").toList, ("人工智能龙头企业").toList, some (3/4), false⟩,
    ⟨("海康威视").toList, ("002415").toList, ("智能安防领域领先").toList, some (7/10), false⟩],
   ("国务院发布AI发展规划").toList⟩

/-- A rough result with six stage-1 recommendations (distinct codes). -/
def c6_rough : RoughResult :=
  ⟨[⟨("甲").toList, ("000001").toList, [], some (1/2), false⟩,
    ⟨("乙").toList, ("000002").toList, [], some (6/10), false⟩,
    ⟨("丙").toList, ("000003").toList, [], some (7/10), false⟩,
    ⟨("丁").toList, ("000004").toList, [], some (8/10), false⟩,
    ⟨("戊").toList, ("000005").toList, [], some (9/10), false⟩,
    ⟨("己").toList, ("000006").toList, [], some (95/100), false⟩], []⟩

/-! ## Shared lemmas about the importance scorer -/

theorem recency_score_bounds (h : ℚ) : 2/10 ≤ recency_score h ∧ recency_score h ≤ 1 := by
  unfold recency_score
  split
  · norm_num
  split
  · norm_num
  split
  · norm_num
  rename_i h1 h2 h3
  push_neg at h3
  exact ⟨le_max_left _ _, max_le (by norm_num) (by linarith)⟩

theorem news_source_weight_bounds (s : List Char) :
    8/10 ≤ news_source_weight s ∧ news_source_weight s ≤ 95/100 := by
  unfold news_source_weight
  split
  · norm_num
  split
  · norm_num
  split
  · norm_num
  norm_num

theorem hardness_score_bounds (item : NewsItem) :
    0 ≤ hardness_score item ∧ hardness_score item ≤ 1 := by
  obtain ⟨hw1, hw2⟩ := news_source_weight_bounds item.source
  have hm1 : (0:ℚ) ≤ min 1 ((policy_hits (news_text item) : ℚ) * (15/100)) :=
    le_min (by norm_num) (by positivity)
  have hm2 : min 1 ((policy_hits (news_text item) : ℚ) * (15/100)) ≤ 1 := min_le_left _ _
  unfold hardness_score
  constructor <;> linarith

theorem persistence_score_bounds (item : NewsItem) :
    1/2 ≤ persistence_score item ∧ persistence_score item ≤ 1 := by
  have hm1 : (0:ℚ) ≤ min 1 ((item.title.length : ℚ) / 30) :=
    le_min (by norm_num) (by positivity)
  have hm2 : min 1 ((item.title.length : ℚ) / 30) ≤ 1 := min_le_left _ _
  have hx : (1:ℚ)/2 ≤ 5/10 + 3/10 * min 1 ((item.title.length : ℚ) / 30)
      + (if continuity_keywords.any (fun k => hasSubstr k (news_text item)) then 2/10 else 0) := by
    split <;> linarith
  unfold persistence_score
  exact ⟨le_min (by norm_num) hx, min_le_left _ _⟩

theorem compute_news_strength_cons (item : NewsItem) (rest : List NewsItem) (now : ℚ) :
    compute_news_strength (item :: rest) now
      = ⟨34/100 * recency_score (hours_since now item)
          + 33/100 * hardness_score item + 33/100 * persistence_score item,
        some ⟨round3 (recency_score (hours_since now item)), round3 (hardness_score item),
          round3 (persistence_score item), round3 (news_source_weight item.source),
          policy_hits (news_text item), round2 (hours_since now item)⟩⟩ := rfl

/-! ## C2 -/

/-- C2: for every news item (any title, content, source, publish time) and
any scoring instant, the composite strength returned by
`_compute_news_strength` equals the fixed weighted sum
`0.34·recency + 0.33·hardness + 0.33·persistence`, the weights sum to 1, and
the composite lies in `[0, 1]`. -/
theorem c2_composite_bounded_weighted_sum (item : NewsItem) (now : ℚ) :
    (compute_news_strength [item] now).total_strength
        = 34/100 * recency_score (hours_since now item)
          + 33/100 * hardness_score item + 33/100 * persistence_score item
    ∧ ((34:ℚ)/100 + 33/100 + 33/100) = 1
    ∧ 0 ≤ (compute_news_strength [item] now).total_strength
    ∧ (compute_news_strength [item] now).total_strength ≤ 1 := by
  have heq : (compute_news_strength [item] now).total_strength
      = 34/100 * recency_score (hours_since now item)
        + 33/100 * hardness_score item + 33/100 * persistence_score item := rfl
  obtain ⟨hr1, hr2⟩ := recency_score_bounds (hours_since now item)
  obtain ⟨hh1, hh2⟩ := hardness_score_bounds item
  obtain ⟨hp1, hp2⟩ := persistence_score_bounds item
  refine ⟨heq, by norm_num, ?_, ?_⟩ <;> rw [heq] <;> linarith

/-! ## C7 -/

theorem c7_eval : compute_news_strength [c7_item] 2
    = ⟨433/500, some ⟨4/5, 4/5, 1, 19/20, 3, 2⟩⟩ := by
  have hhours : hours_since 2 c7_item = 2 := by simp [hours_since, c7_item]
  have hrec : recency_score (2:ℚ) = 4/5 := by norm_num [recency_score]
  have hw : news_source_weight c7_item.source = 95/100 := by
    rw [c7_item, news_source_weight]; simp
  have hhits : policy_hits (news_text c7_item) = 3 := by decide
  have hcont : continuity_keywords.any (fun k => hasSubstr k (news_text c7_item)) = true := by
    decide
  have hlen : c7_item.title.length = 40 := by decide
  have hhard : hardness_score c7_item = 4/5 := by
    rw [hardness_score, hhits, hw]; norm_num [min_def]
  have hpers : persistence_score c7_item = 1 := by
    rw [persistence_score, hcont, hlen]; norm_num [min_def]
  rw [compute_news_strength_cons, hhours, hrec, hhard, hpers, hw, hhits]
  simp only [ScoreResult.mk.injEq, Option.some.injEq, ScoreDetail.mk.injEq]
  norm_num [round3, round2, round_eq]

/-- C7 counterexample: for the scenario item (2 hours old, source weight
0.95, 3 policy hits, title length 40, continuity keyword present) the
composite is exactly 0.866, which differs from the claimed ≈0.871 by 0.005. -/
theorem c7_counterexample :
    (compute_news_strength [c7_item] 2).total_strength = 433/500
    ∧ (compute_news_strength [c7_item] 2).total_strength ≠ 871/1000
    ∧ |(compute_news_strength [c7_item] 2).total_strength - 871/1000| = 1/200 := by
  have htot : (compute_news_strength [c7_item] 2).total_strength = 433/500 := by
    rw [c7_eval]
  refine ⟨htot, by rw [htot]; norm_num, ?_⟩
  rw [htot, show (433/500 : ℚ) - 871/1000 = -(1/200) by norm_num, abs_neg,
    abs_of_nonneg (by norm_num : (0:ℚ) ≤ 1/200)]

/-- C7 amended: the scenario item yields recency 0.8, hardness 0.8,
persistence 1.0 as claimed, but the composite is
0.34·0.8 + 0.33·0.8 + 0.33·1.0 = 0.866 exactly (not ≈0.871). -/
theorem c7_amended_scenario : compute_news_strength [c7_item] 2
    = ⟨433/500, some ⟨4/5, 4/5, 1, 19/20, 3, 2⟩⟩ := c7_eval

/-! ## C8 -/

/-- C8 counterexample: `_compute_news_strength` reads the current clock, so
the same item scored at two different instants (here 0h and 7h after its
publish time) yields different composites and different results — scoring is
not a function of the `NewsItem` alone. -/
theorem c8_counterexample :
    (compute_news_strength [c8_item] 0).total_strength
      ≠ (compute_news_strength [c8_item] 7).total_strength
    ∧ compute_news_strength [c8_item] 0 ≠ compute_news_strength [c8_item] 7 := by
  have h0 : hours_since 0 c8_item = 0 := by simp [hours_since, c8_item]
  have h7 : hours_since 7 c8_item = 7 := by simp [hours_since, c8_item]
  have e0 : (compute_news_strength [c8_item] 0).total_strength
      = 34/100 * recency_score (hours_since 0 c8_item)
        + 33/100 * hardness_score c8_item + 33/100 * persistence_score c8_item := rfl
  have e7 : (compute_news_strength [c8_item] 7).total_strength
      = 34/100 * recency_score (hours_since 7 c8_item)
        + 33/100 * hardness_score c8_item + 33/100 * persistence_score c8_item := rfl
  have hr0 : recency_score (0:ℚ) = 1 := by norm_num [recency_score]
  have hr7 : recency_score (7:ℚ) = 6/10 := by norm_num [recency_score]
  have hne : (compute_news_strength [c8_item] 0).total_strength
      ≠ (compute_news_strength [c8_item] 7).total_strength := by
    rw [e0, e7, h0, h7, hr0, hr7]
    intro hcontra
    linarith
  exact ⟨hne, fun h => hne (congrArg ScoreResult.total_strength h)⟩

/-- C8 amended: scoring is deterministic given the observed clock instant
(it is a pure function of the item and `now`), and for an item whose publish
time is missing or unparseable the result does not depend on the clock at
all, since the code then takes the elapsed time to be zero. -/
theorem c8_amended_clock_free (item : NewsItem) (t1 t2 : ℚ)
    (h : item.publish_time = none) :
    compute_news_strength [item] t1 = compute_news_strength [item] t2 := by
  have h1 : hours_since t1 item = 0 := by simp [hours_since, h]
  have h2 : hours_since t2 item = 0 := by simp [hours_since, h]
  rw [compute_news_strength_cons, compute_news_strength_cons, h1, h2]

/-- Witness for the amended C8 theorem at a concrete missing-publish-time
item and the instants 0 and 5. -/
theorem c8_amended_clock_free_witness :
    c8w_item.publish_time = none
    ∧ compute_news_strength [c8w_item] 0 = compute_news_strength [c8w_item] 5 :=
  ⟨rfl, c8_amended_clock_free c8w_item 0 5 rfl⟩

/-! ## Shared lemmas about the failover chain -/

theorem run_gate_off {α : Type} (s : SourceAdapter α) (rest : List (SourceAdapter α))
    (h : s.quota_gate = some false) :
    get_latest_news_run (s :: rest)
      = ((get_latest_news_run rest).1, false :: (get_latest_news_run rest).2) := by
  simp [get_latest_news_run, h]

theorem run_skip {α : Type} (s : SourceAdapter α) (rest : List (SourceAdapter α))
    (h : ¬ s.quota_gate = some false)
    (h2 : s.outcome = FetchOutcome.noResult ∨ s.outcome = FetchOutcome.raises
      ∨ s.outcome = FetchOutcome.batch []) :
    get_latest_news_run (s :: rest)
      = ((get_latest_news_run rest).1, true :: (get_latest_news_run rest).2) := by
  rcases h2 with h2 | h2 | h2 <;> simp [get_latest_news_run, h, h2]

theorem run_hit {α : Type} (s : SourceAdapter α) (rest : List (SourceAdapter α))
    (l : List α) (h : ¬ s.quota_gate = some false)
    (h2 : s.outcome = FetchOutcome.batch l) (hl : l ≠ []) :
    get_latest_news_run (s :: rest) = (l, true :: rest.map fun _ => false) := by
  have hlen : 0 < l.length := List.length_pos.mpr hl
  simp [get_latest_news_run, h, h2, hlen]

/-! ## C3 -/

/-- C3: the failover chain iterates adapters in priority (list) order; if
every earlier adapter yields nothing this tick and an adapter whose quota
gate is not off returns a non-empty batch `l`, then `get_latest_news`
returns exactly `l`, and the instrumented run shows that no adapter after it
is called. -/
theorem c3_first_success_wins {α : Type} (pre post : List (SourceAdapter α))
    (g : Option Bool) (l : List α)
    (hpre : ∀ s ∈ pre, adapter_yields_nothing s)
    (hg : ¬ g = some false) (hl : l ≠ []) :
    get_latest_news (pre ++ ⟨g, FetchOutcome.batch l⟩ :: post) = l
    ∧ (get_latest_news_run (pre ++ ⟨g, FetchOutcome.batch l⟩ :: post)).2.drop (pre.length + 1)
        = post.map (fun _ => false) := by
  induction pre with
  | nil =>
    rw [List.nil_append]
    rw [get_latest_news, run_hit ⟨g, FetchOutcome.batch l⟩ post l hg rfl hl]
    exact ⟨rfl, rfl⟩
  | cons s pre' ih =>
    have hs := hpre s (by simp)
    have hrest : ∀ x ∈ pre', adapter_yields_nothing x := fun x hx => hpre x (by simp [hx])
    obtain ⟨ih1, ih2⟩ := ih hrest
    rw [List.cons_append]
    by_cases hq : s.quota_gate = some false
    · rw [get_latest_news, run_gate_off s _ hq]
      refine ⟨ih1, ?_⟩
      simpa [List.length_cons] using ih2
    · rcases hs with hq' | ho | ho | ho
      · exact absurd hq' hq
      all_goals
        rw [get_latest_news, run_skip s _ hq (by simp [ho])]
        refine ⟨ih1, ?_⟩
        simpa [List.length_cons] using ih2

/-- Witness for C3: a concrete chain where the first two adapters are
quota-gated off or unavailable, one raises, one returns an empty batch, the
fifth returns `[1, 2]` and a sixth is never called. -/
theorem c3_first_success_wins_witness :
    get_latest_news
        ([⟨some false, FetchOutcome.batch [7]⟩, ⟨none, FetchOutcome.noResult⟩,
          ⟨none, FetchOutcome.raises⟩, ⟨none, FetchOutcome.batch []⟩,
          ⟨none, FetchOutcome.batch [1, 2]⟩, ⟨none, FetchOutcome.batch [9]⟩]
          : List (SourceAdapter ℕ)) = [1, 2]
    ∧ (get_latest_news_run
        ([⟨some false, FetchOutcome.batch [7]⟩, ⟨none, FetchOutcome.noResult⟩,
          ⟨none, FetchOutcome.raises⟩, ⟨none, FetchOutcome.batch []⟩,
          ⟨none, FetchOutcome.batch [1, 2]⟩, ⟨none, FetchOutcome.batch [9]⟩]
          : List (SourceAdapter ℕ))).2.drop 5 = [false] := by
  have h := c3_first_success_wins (α := ℕ)
      [⟨some false, FetchOutcome.batch [7]⟩, ⟨none, FetchOutcome.noResult⟩,
        ⟨none, FetchOutcome.raises⟩, ⟨none, FetchOutcome.batch []⟩]
      [⟨none, FetchOutcome.batch [9]⟩] none [1, 2]
      (by decide) (by decide) (by decide)
  simpa using h

/-! ## C9 -/

/-- C9: when every configured adapter yields nothing this tick (quota-gated
off, unavailable, raising, or returning an empty batch), `get_latest_news`
returns the empty list; the function is total, so no exception propagates. -/
theorem c9_total_failure {α : Type} (sources : List (SourceAdapter α))
    (h : ∀ s ∈ sources, adapter_yields_nothing s) :
    get_latest_news sources = [] := by
  induction sources with
  | nil => rfl
  | cons s rest ih =>
    have hs := h s (by simp)
    have hrest : ∀ x ∈ rest, adapter_yields_nothing x := fun x hx => h x (by simp [hx])
    by_cases hq : s.quota_gate = some false
    · rw [get_latest_news, run_gate_off s rest hq]
      exact ih hrest
    · rcases hs with hq' | ho | ho | ho
      · exact absurd hq' hq
      all_goals
        rw [get_latest_news, run_skip s rest hq (by simp [ho])]
        exact ih hrest

/-- Witness for C9: five concrete adapters, all failing in the ways the
scenario lists, produce the empty batch. -/
theorem c9_total_failure_witness :
    get_latest_news
        ([⟨none, FetchOutcome.noResult⟩, ⟨none, FetchOutcome.noResult⟩,
          ⟨some false, FetchOutcome.batch [3]⟩, ⟨none, FetchOutcome.raises⟩,
          ⟨none, FetchOutcome.batch []⟩] : List (SourceAdapter ℕ)) = [] :=
  c9_total_failure _ (by decide)

/-! ## C4 -/

theorem fetch_iter_fresh {α : Type} (lim d : ℕ) (items : List α) :
    ∀ n c, c + n ≤ daily_limit →
      fetch_iter d lim (NetOutcome.response 200 (some items)) n ⟨c, d⟩ = ⟨c + n, d⟩ := by
  intro n
  induction n with
  | zero => intro c h; simp [fetch_iter]
  | succ n ih =>
    intro c h
    have hc : c < daily_limit := by omega
    have hstate : (toutiao_get_latest_news d lim
        (NetOutcome.response 200 (some items)) ⟨c, d⟩).state = ⟨c + 1, d⟩ := by
      simp [toutiao_get_latest_news, is_quota_available, hc]
    simp only [fetch_iter]
    rw [hstate, ih (c + 1) (by omega)]
    congr 1
    omega

/-- C4: with the daily limit of 50 reached on day `d`, the quota check
returns `false` and the fetch returns no result without a network call and
without changing state (so every further same-day call behaves identically);
on any other day `dn` the count resets to 0 and the check passes again.
Moreover 50 consumptions starting from a fresh day-`d` state drive the count
exactly to the limit, after which the check fails. -/
theorem c4_quota_tracker {α : Type} (s : QuotaState) (d dn lim : ℕ)
    (net : NetOutcome α) (items : List α)
    (hday : s.last_reset_date = d) (hcount : daily_limit ≤ s.daily_call_count)
    (hdn : dn ≠ d) :
    (is_quota_available d s).1 = false
    ∧ toutiao_get_latest_news d lim net s = ⟨none, false, s⟩
    ∧ (is_quota_available dn s).1 = true
    ∧ (is_quota_available dn s).2 = ⟨0, dn⟩
    ∧ fetch_iter d lim (NetOutcome.response 200 (some items)) daily_limit ⟨0, d⟩
        = ⟨daily_limit, d⟩
    ∧ (is_quota_available d (⟨daily_limit, d⟩ : QuotaState)).1 = false := by
  have h1 : (is_quota_available d s).1 = false := by
    simp [is_quota_available, hday]
    omega
  have h2 : (is_quota_available d s).2 = s := by
    simp [is_quota_available, hday]
  refine ⟨h1, ?_, ?_, ?_, ?_, ?_⟩
  · rw [toutiao_get_latest_news.eq_def]
    simp only [h1, Bool.false_eq_true, if_false, h2]
  · simp [is_quota_available, hday, hdn, daily_limit]
  · simp [is_quota_available, hday, hdn]
  · exact fetch_iter_fresh lim d items daily_limit 0 (by omega)
  · simp [is_quota_available]

/-- Witness for C4 at a concrete saturated state (count 50 on day 3),
checking day 3 and day 4 behaviour and the 50-step consumption run. -/
theorem c4_quota_tracker_witness :
    (⟨50, 3⟩ : QuotaState).last_reset_date = 3
    ∧ daily_limit ≤ (⟨50, 3⟩ : QuotaState).daily_call_count
    ∧ ((is_quota_available 3 (⟨50, 3⟩ : QuotaState)).1 = false
      ∧ toutiao_get_latest_news 3 10 (NetOutcome.raises (α := ℕ)) ⟨50, 3⟩
          = ⟨none, false, ⟨50, 3⟩⟩
      ∧ (is_quota_available 4 (⟨50, 3⟩ : QuotaState)).1 = true
      ∧ (is_quota_available 4 (⟨50, 3⟩ : QuotaState)).2 = ⟨0, 4⟩
      ∧ fetch_iter 3 10 (NetOutcome.response 200 (some [1])) daily_limit ⟨0, 3⟩
          = ⟨daily_limit, 3⟩
      ∧ (is_quota_available 3 (⟨daily_limit, 3⟩ : QuotaState)).1 = false) :=
  ⟨rfl, by decide,
    c4_quota_tracker (⟨50, 3⟩ : QuotaState) 3 4 10 (NetOutcome.raises (α := ℕ)) [1]
      rfl (by decide) (by decide)⟩

/-! ## Shared lemmas about the stage-2 fallback sort and rounding -/

theorem insert_desc_length (r : StockRec) (l : List StockRec) :
    (insert_desc r l).length = l.length + 1 := by
  induction l with
  | nil => rfl
  | cons x xs ih =>
    unfold insert_desc
    split
    · simp
    · simp [ih]

theorem sort_desc_length (l : List StockRec) : (sort_desc l).length = l.length := by
  induction l with
  | nil => rfl
  | cons x xs ih => simp [sort_desc, insert_desc_length, ih]

theorem mem_insert_desc (a r : StockRec) (l : List StockRec) :
    a ∈ insert_desc r l ↔ a = r ∨ a ∈ l := by
  induction l with
  | nil => simp [insert_desc]
  | cons x xs ih =>
    unfold insert_desc
    split
    · simp [List.mem_cons]
    · simp [List.mem_cons, ih]
      tauto

theorem mem_sort_desc (a : StockRec) (l : List StockRec) : a ∈ sort_desc l ↔ a ∈ l := by
  induction l with
  | nil => simp [sort_desc]
  | cons x xs ih => simp [sort_desc, mem_insert_desc, ih]

theorem insert_desc_sorted (r : StockRec) (l : List StockRec)
    (h : List.Pairwise (fun a b => conf_key b ≤ conf_key a) l) :
    List.Pairwise (fun a b => conf_key b ≤ conf_key a) (insert_desc r l) := by
  induction l with
  | nil => simp [insert_desc]
  | cons x xs ih =>
    obtain ⟨hx, hxs⟩ := List.pairwise_cons.mp h
    unfold insert_desc
    split
    · rename_i hlt
      refine List.pairwise_cons.mpr ⟨?_, h⟩
      intro b hb
      rcases List.mem_cons.mp hb with rfl | hb
      · exact le_of_lt hlt
      · exact (hx b hb).trans (le_of_lt hlt)
    · rename_i hnlt
      push_neg at hnlt
      refine List.pairwise_cons.mpr ⟨?_, ih hxs⟩
      intro b hb
      rcases (mem_insert_desc b r xs).mp hb with rfl | hb
      · exact hnlt
      · exact hx b hb

theorem sort_desc_sorted (l : List StockRec) :
    List.Pairwise (fun a b => conf_key b ≤ conf_key a) (sort_desc l) := by
  induction l with
  | nil => simp [sort_desc]
  | cons x xs ih => exact insert_desc_sorted x _ ih

theorem round3_le_cap (x : ℚ) (h : x ≤ 95/100) : round3 x ≤ 95/100 := by
  unfold round3
  have h2 : round (x * 1000) ≤ round (950 : ℚ) := by
    rw [round_eq, round_eq]
    exact Int.floor_mono (by linarith)
  have h3 : round (950 : ℚ) = 950 := by
    rw [show (950 : ℚ) = ((950 : ℤ) : ℚ) by norm_num, round_intCast]
  have h4 : ((round (x * 1000) : ℤ) : ℚ) ≤ 950 := by
    exact_mod_cast h2.trans_eq h3
  linarith

theorem enhance_rec_conf_le (t : List Char) (rec : StockRec) :
    conf_key (enhance_rec t rec) ≤ 95/100 ∧ (enhance_rec t rec).confidence ≠ none := by
  constructor
  · exact round3_le_cap _ (min_le_left _ _)
  · intro hcontra
    simp [enhance_rec] at hcontra

theorem fallback_refined_result_status (rough : RoughResult) :
    (fallback_refined_result rough).status = none := by
  unfold fallback_refined_result
  split <;> rfl

theorem ai_refined_analysis_status (call_out : Option RefinedJson) (rough : RoughResult) :
    (ai_refined_analysis call_out rough).status = none := by
  cases call_out with
  | none => exact fallback_refined_result_status rough
  | some rj => rfl

theorem stage2_go_prompt_fail (rough : RoughResult) (e : AttemptEnv)
    (rest : List AttemptEnv) (i : ℕ) (hp : e.prompt_ok = false) :
    execute_stage2_go rough i (e :: rest)
      = ⟨(execute_stage2_go rough (i + 1) rest).result,
         (execute_stage2_go rough (i + 1) rest).attempts + 1,
         (if 0 < i then [2 ^ i] else []) ++ (execute_stage2_go rough (i + 1) rest).delays⟩ := by
  simp [execute_stage2_go, hp]

theorem stage2_go_accept (rough : RoughResult) (e : AttemptEnv)
    (rest : List AttemptEnv) (i : ℕ) (hp : e.prompt_ok = true) :
    execute_stage2_go rough i (e :: rest)
      = ⟨some (if (ai_refined_analysis e.call_out rough).final_recommendations.isEmpty
               then { ai_refined_analysis e.call_out rough with
                       final_recommendations := rough.recommendations,
                       stage2_fallback := true }
               else ai_refined_analysis e.call_out rough),
         1, if 0 < i then [2 ^ i] else []⟩ := by
  have hstat := ai_refined_analysis_status e.call_out rough
  simp [execute_stage2_go, hp, hstat]

/-! ## C10 -/

/-- C10: every recommendation emitted by the stage-2 exhaustion fallback
carries a (present) adjusted confidence of at most 0.95, because the rule
boost is capped by `min(0.95, original + boost)` before rounding. -/
theorem c10_fallback_confidence_capped (rough : RoughResult) (r : StockRec)
    (hr : r ∈ (fallback_refined_result rough).final_recommendations) :
    conf_key r ≤ 95/100 ∧ r.confidence ≠ none := by
  unfold fallback_refined_result at hr
  by_cases he : rough.recommendations.isEmpty
  · rw [if_pos he] at hr
    simp at hr
  · rw [if_neg he] at hr
    have hmem : r ∈ (rough.recommendations.take 5).map (enhance_rec rough.news_title) :=
      (mem_sort_desc r _).mp hr
    obtain ⟨orig, -, rfl⟩ := List.mem_map.mp hmem
    exact enhance_rec_conf_le _ _

/-- Witness for C10 at a concrete one-recommendation rough result. -/
theorem c10_fallback_confidence_capped_witness :
    enhance_rec (("x").toList) cex_rec
        ∈ (fallback_refined_result cex_rough).final_recommendations
    ∧ conf_key (enhance_rec (("x").toList) cex_rec) ≤ 95/100
    ∧ (enhance_rec (("x").toList) cex_rec).confidence ≠ none := by
  have hmem : enhance_rec (("x").toList) cex_rec
      ∈ (fallback_refined_result cex_rough).final_recommendations := by
    show enhance_rec (("x").toList) cex_rec ∈ [enhance_rec (("x").toList) cex_rec]
    exact List.mem_singleton.mpr rfl
  obtain ⟨h1, h2⟩ := c10_fallback_confidence_capped cex_rough _ hmem
  exact ⟨hmem, h1, h2⟩

/-! ## C6 -/

/-- C6 amended: with a non-empty stage-1 list, the stage-2 exhaustion
fallback emits status `fallback_enhanced` with `min(stage-1 count, 5)`
recommendations (unchanged whenever stage 1 produced at most 5), sorted in
non-increasing order of the adjusted confidences; and the retry loop returns
exactly this fallback result as soon as an iteration's AI call comes back
falsy (e.g. a timeout). -/
theorem c6_amended_fallback_enhanced (rough : RoughResult) (rest : List AttemptEnv)
    (hrec : rough.recommendations ≠ []) :
    (fallback_refined_result rough).stage2_status = ("fallback_enhanced").toList
    ∧ (fallback_refined_result rough).final_recommendations.length
        = min rough.recommendations.length 5
    ∧ (rough.recommendations.length ≤ 5 →
        (fallback_refined_result rough).final_recommendations.length
          = rough.recommendations.length)
    ∧ List.Pairwise (fun a b => conf_key b ≤ conf_key a)
        (fallback_refined_result rough).final_recommendations
    ∧ (execute_stage2_with_retry rough (⟨true, none⟩ :: rest)).result
        = some (fallback_refined_result rough) := by
  have hie : rough.recommendations.isEmpty = false := by
    cases hl : rough.recommendations with
    | nil => exact absurd hl hrec
    | cons a as => rfl
  have hfr : fallback_refined_result rough
      = ⟨sort_desc ((rough.recommendations.take 5).map (enhance_rec rough.news_title)),
          ("fallback_enhanced").toList, none, false, true⟩ := by
    unfold fallback_refined_result
    rw [hie]
    rfl
  have hlen : (fallback_refined_result rough).final_recommendations.length
      = min rough.recommendations.length 5 := by
    rw [hfr]
    show (sort_desc _).length = _
    rw [sort_desc_length, List.length_map, List.length_take, min_comm]
  refine ⟨by rw [hfr], hlen, ?_, ?_, ?_⟩
  · intro h5
    rw [hlen]
    omega
  · rw [hfr]
    exact sort_desc_sorted _
  · have hne : (fallback_refined_result rough).final_recommendations ≠ [] := by
      intro hl
      have hz := hlen
      rw [hl] at hz
      cases hc : rough.recommendations with
      | nil => exact hrec hc
      | cons a as =>
        rw [hc] at hz
        simp at hz
        omega
    have hne2 : (fallback_refined_result rough).final_recommendations.isEmpty = false := by
      cases hl : (fallback_refined_result rough).final_recommendations with
      | nil => exact absurd hl hne
      | cons a as => rfl
    show (execute_stage2_go rough 0 (⟨true, none⟩ :: rest)).result
        = some (fallback_refined_result rough)
    rw [stage2_go_accept rough ⟨true, none⟩ rest 0 rfl]
    simp [ai_refined_analysis, hne2]

/-- Witness for C6 at the scenario's two-recommendation stage-1 result. -/
theorem c6_amended_fallback_enhanced_witness :
    (fallback_refined_result c6w_rough).stage2_status = ("fallback_enhanced").toList
    ∧ (fallback_refined_result c6w_rough).final_recommendations.length
        = min c6w_rough.recommendations.length 5
    ∧ (c6w_rough.recommendations.length ≤ 5 →
        (fallback_refined_result c6w_rough).final_recommendations.length
          = c6w_rough.recommendations.length)
    ∧ List.Pairwise (fun a b => conf_key b ≤ conf_key a)
        (fallback_refined_result c6w_rough).final_recommendations
    ∧ (execute_stage2_with_retry c6w_rough (⟨true, none⟩ :: [])).result
        = some (fallback_refined_result c6w_rough) :=
  c6_amended_fallback_enhanced c6w_rough [] (by simp [c6w_rough])

/-- C6 counterexample: a stage-1 result with six recommendations is cut to
five by the fallback (`stage1_recommendations[:5]`), so the recommendation
count is not unchanged in general. -/
theorem c6_counterexample :
    c6_rough.recommendations.length = 6
    ∧ (fallback_refined_result c6_rough).final_recommendations.length = 5 := by
  constructor
  · rfl
  · have hfr : (fallback_refined_result c6_rough).final_recommendations
        = sort_desc ((c6_rough.recommendations.take 5).map (enhance_rec c6_rough.news_title)) :=
      rfl
    rw [hfr, sort_desc_length, List.length_map, List.length_take]
    decide

/-! ## C5 -/

theorem stage2_attempts_le (rough : RoughResult) :
    ∀ (env : List AttemptEnv) (i : ℕ), (execute_stage2_go rough i env).attempts ≤ env.length := by
  intro env
  induction env with
  | nil => intro i; simp [execute_stage2_go]
  | cons e rest ih =>
    intro i
    have hih := ih (i + 1)
    cases hp : e.prompt_ok
    · rw [stage2_go_prompt_fail rough e rest i hp]
      simp only [List.length_cons]
      omega
    · rw [stage2_go_accept rough e rest i hp]
      simp

theorem stage2_delays_backoff (rough : RoughResult) :
    ∀ (env : List AttemptEnv) (i : ℕ),
      (execute_stage2_go rough i env).delays
        = ((List.range' i (execute_stage2_go rough i env).attempts).filter
            (fun j => decide (0 < j))).map (fun j => 2 ^ j) := by
  intro env
  induction env with
  | nil => intro i; simp [execute_stage2_go]
  | cons e rest ih =>
    intro i
    have hih := ih (i + 1)
    cases hp : e.prompt_ok
    · rw [stage2_go_prompt_fail rough e rest i hp]
      simp only [List.range'_succ, List.filter_cons]
      by_cases hi : 0 < i <;> simp [hi, hih]
    · rw [stage2_go_accept rough e rest i hp]
      simp only [List.range'_succ, List.filter_cons]
      by_cases hi : 0 < i <;> simp [hi]

/-- C5 amended: the retry loop runs at most one iteration per environment
entry (3 with the default `max_retries = 3`), sleeping `2^i` seconds before
iteration `i > 0`; but its validity check only inspects the `'status'` key,
which the stage-2 analysis never sets, so the first iteration whose prompt
builds is always accepted — a response with an empty ranked list is not
retried; instead the stage-1 recommendations are substituted and the result
is flagged `stage2_fallback`. -/
theorem c5_amended_retry (rough : RoughResult) (env : List AttemptEnv)
    (e : AttemptEnv) (rest : List AttemptEnv) (hp : e.prompt_ok = true) :
    (execute_stage2_with_retry rough env).attempts ≤ env.length
    ∧ (execute_stage2_with_retry rough env).delays
        = ((List.range' 0 (execute_stage2_with_retry rough env).attempts).filter
            (fun j => decide (0 < j))).map (fun j => 2 ^ j)
    ∧ (ai_refined_analysis e.call_out rough).status = none
    ∧ (execute_stage2_with_retry rough (e :: rest)).attempts = 1
    ∧ ((ai_refined_analysis e.call_out rough).final_recommendations = [] →
        (execute_stage2_with_retry rough (e :: rest)).result
          = some { ai_refined_analysis e.call_out rough with
                    final_recommendations := rough.recommendations,
                    stage2_fallback := true }) := by
  have hstat : (ai_refined_analysis e.call_out rough).status = none :=
    ai_refined_analysis_status e.call_out rough
  have hnp : ¬ e.prompt_ok = false := by rw [hp]; simp
  refine ⟨stage2_attempts_le rough env 0, stage2_delays_backoff rough env 0, hstat, ?_, ?_⟩
  · show (execute_stage2_go rough 0 (e :: rest)).attempts = 1
    rw [stage2_go_accept rough e rest 0 hp]
  · intro hempty
    show (execute_stage2_go rough 0 (e :: rest)).result = _
    rw [stage2_go_accept rough e rest 0 hp, hempty]
    simp

/-- Witness for the amended C5 theorem at a concrete environment whose first
AI response parses but carries an empty ranked list. -/
theorem c5_amended_retry_witness :
    (execute_stage2_with_retry cex_rough cex_env).attempts ≤ cex_env.length
    ∧ (execute_stage2_with_retry cex_rough cex_env).delays
        = ((List.range' 0 (execute_stage2_with_retry cex_rough cex_env).attempts).filter
            (fun j => decide (0 < j))).map (fun j => 2 ^ j)
    ∧ (ai_refined_analysis (some ⟨some [], none⟩) cex_rough).status = none
    ∧ (execute_stage2_with_retry cex_rough
        ((⟨true, some ⟨some [], none⟩⟩ : AttemptEnv) :: [])).attempts = 1
    ∧ ((ai_refined_analysis (some ⟨some [], none⟩) cex_rough).final_recommendations = [] →
        (execute_stage2_with_retry cex_rough
            ((⟨true, some ⟨some [], none⟩⟩ : AttemptEnv) :: [])).result
          = some { ai_refined_analysis (some ⟨some [], none⟩) cex_rough with
                    final_recommendations := cex_rough.recommendations,
                    stage2_fallback := true }) :=
  c5_amended_retry cex_rough cex_env ⟨true, some ⟨some [], none⟩⟩ [] rfl

/-- C5 counterexample: with every prompt building and every response parsing
into the schema but with an empty ranked list, the loop accepts the very
first attempt (no retry), substituting the stage-1 recommendations and
setting `stage2_fallback` — the claimed retry-on-empty does not happen. -/
theorem c5_counterexample :
    (execute_stage2_with_retry cex_rough cex_env).attempts = 1
    ∧ (execute_stage2_with_retry cex_rough cex_env).result
        = some ⟨[cex_rec], ("success").toList, none, true, false⟩
    ∧ (cex_env.headD ⟨false, none⟩).call_out = some ⟨some [], none⟩ :=
  ⟨rfl, rfl, rfl⟩

/-! ## C1 -/

theorem build_fallback_recs_length (kw : List Char)
    (stocks : List (List Char × List Char × List Char)) :
    ∀ n, (build_fallback_recs kw stocks n).length = stocks.length := by
  induction stocks with
  | nil => intro n; rfl
  | cons s rest ih =>
    intro n
    obtain ⟨code, name, reason⟩ := s
    simp [build_fallback_recs, ih]

/-- C1 counterexample: the timeout return of `_analyze_with_ai_timeout` is
`{'status': 'timeout', 'error': ...}` — it carries a status tag but no
recommendation list at all. -/
theorem c1_counterexample :
    (analyze_with_ai_timeout InnerOutcome.timeout).recommendations = none
    ∧ (analyze_with_ai_timeout InnerOutcome.timeout).final_recommendations = none
    ∧ (analyze_with_ai_timeout InnerOutcome.timeout).status = some (("timeout").toList) :=
  ⟨rfl, rfl, rfl⟩

/-- C1 amended: `_analyze_with_ai_timeout` is total (never raises) and every
return carries a status tag on the timeout and thread-error paths — but those
two paths carry no recommendation list; the completed path returns the inner
result unchanged.  The basic fallback `_generate_fallback_recommendations`
always yields at least one recommendation entry with status
`fallback_success`. -/
theorem c1_amended_boundary (title m : List Char) (r : PipeValue) :
    (analyze_with_ai_timeout InnerOutcome.timeout).status = some (("timeout").toList)
    ∧ (analyze_with_ai_timeout InnerOutcome.timeout).recommendations = none
    ∧ (analyze_with_ai_timeout (InnerOutcome.raised m)).status = some (("error").toList)
    ∧ (analyze_with_ai_timeout (InnerOutcome.raised m)).recommendations = none
    ∧ analyze_with_ai_timeout (InnerOutcome.completed r) = r
    ∧ 1 ≤ (generate_fallback_recommendations title).recommendations.length
    ∧ (generate_fallback_recommendations title).status = ("fallback_success").toList := by
  refine ⟨rfl, rfl, rfl, rfl, rfl, ?_, rfl⟩
  show 1 ≤ (generate_fallback_recommendations title).recommendations.length
  unfold generate_fallback_recommendations
  split
  · decide
  split
  · decide
  split
  · decide
  split
  · decide
  · decide

end S2P
